import Mathlib

set_option maxHeartbeats 1000000
set_option maxRecDepth 40000

/-!
Verification development for the DocOutline heading/title classification core.

The definitions below are a shallow embedding of `heading_detector.py`
(class `HeadingDetector`) and of the span-level parts of `pdf_extractor.py`
(`_extract_title`, `_extract_outline`).  Python strings are modelled as
`List Char` (ASCII semantics for the character classes used by the code),
Python floats as `ℚ`, and the mutable `font_sizes_seen` list as explicit
state passing.  `re.match` against the fixed anchored patterns of the source
is modelled by direct prefix matchers.
-/

namespace DocOutline

/-! ### Python string primitives -/

/-- Python's `str.strip()` / `\s` whitespace set (ASCII part). -/
def pyIsSpace (c : Char) : Bool :=
  c = ' ' || c = '\t' || c = '\n' || c = '\r' || c = '\x0b' || c = '\x0c'

/-- Python `text.strip()`. -/
def pyStrip (s : List Char) : List Char :=
  ((s.dropWhile pyIsSpace).reverse.dropWhile pyIsSpace).reverse

/-- Python `re.sub(r'\s+', ' ', text)`: every maximal whitespace run becomes
one space. -/
def collapseWs : List Char → List Char
  | [] => []
  | [c] => if pyIsSpace c then [' '] else [c]
  | c :: d :: rest =>
    if pyIsSpace c then
      if pyIsSpace d then collapseWs (d :: rest)
      else ' ' :: collapseWs (d :: rest)
    else c :: collapseWs (d :: rest)

/-- Python `str.lower()` (ASCII). -/
def pyLower (s : List Char) : List Char := s.map Char.toLower

/-- Helper for `len(text.split())`: counts maximal non-whitespace runs. -/
def word_count_aux : List Char → Bool → Nat
  | [], _ => 0
  | c :: rest, inWord =>
    if pyIsSpace c then word_count_aux rest false
    else (if inWord then 0 else 1) + word_count_aux rest true

/-- Python `len(text.split())`. -/
def word_count (s : List Char) : Nat := word_count_aux s false

/-- A character is cased (ASCII). -/
def isCased (c : Char) : Bool := c.isUpper || c.isLower

/-- Python `str.isupper()`: at least one cased character and no lowercase
character (ASCII). -/
def py_isupper (s : List Char) : Bool :=
  s.any isCased && s.all (fun c => !c.isLower)

/-- State machine for Python `str.istitle()` (ASCII): uppercase must follow
an uncased character, lowercase must follow a cased one, and at least one
cased character must occur. -/
def py_istitle_aux : List Char → Bool → Bool → Bool
  | [], _, seen => seen
  | c :: rest, prevCased, seen =>
    if c.isUpper then
      (if prevCased then false else py_istitle_aux rest true true)
    else if c.isLower then
      (if prevCased then py_istitle_aux rest true true else false)
    else py_istitle_aux rest false seen

/-- Python `str.istitle()` (ASCII). -/
def py_istitle (s : List Char) : Bool := py_istitle_aux s false false

/-- Bool test: `needle` is a contiguous substring of `hay`
(Python `needle in hay`). -/
def list_contains_sub (needle : List Char) : List Char → Bool
  | [] => needle.isEmpty
  | c :: rest => List.isPrefixOf needle (c :: rest) || list_contains_sub needle rest

/-! ### Anchored regex prefix matchers

`re.match` only anchors at the start, so each pattern is a prefix matcher.
The `Option (List Char)` combinators thread the unconsumed remainder. -/

/-- Consume one or more characters satisfying `p` (maximal munch; all the
`X+` items in the source patterns are followed by a character outside the
class, so maximal munch is exact). -/
def drop1While (p : Char → Bool) : List Char → Option (List Char)
  | [] => none
  | c :: rest => if p c then some (rest.dropWhile p) else none

/-- Consume `\s+` from the remainder of a partial match. -/
def reqWs1 (o : Option (List Char)) : Option (List Char) :=
  o.bind (drop1While pyIsSpace)

/-- Consume `\d+` from the remainder of a partial match. -/
def reqDigits1 (o : Option (List Char)) : Option (List Char) :=
  o.bind (drop1While Char.isDigit)

/-- Consume one literal character from the remainder of a partial match. -/
def reqChar (c : Char) (o : Option (List Char)) : Option (List Char) :=
  o.bind fun s =>
    match s with
    | x :: r => if x = c then some r else none
    | [] => none

/-- Consume exactly one character satisfying `p`. -/
def reqOne (p : Char → Bool) (o : Option (List Char)) : Option (List Char) :=
  o.bind fun s =>
    match s with
    | x :: r => if p x then some r else none
    | [] => none

/-- Consume a case-sensitive literal. -/
def dropLit : List Char → List Char → Option (List Char)
  | [], s => some s
  | _ :: _, [] => none
  | a :: as, c :: cs => if c = a then dropLit as cs else none

/-- Consume a case-insensitive literal (ASCII folding, as `re.IGNORECASE`). -/
def dropLitCI : List Char → List Char → Option (List Char)
  | [], s => some s
  | _ :: _, [] => none
  | a :: as, c :: cs => if c.toLower = a.toLower then dropLitCI as cs else none

/-- `^\d+\.` (used by `_is_potential_heading` and `_clean_heading_text`).
Direct form to ease structural reasoning. -/
def re_num_dot : List Char → Bool
  | [] => false
  | c :: rest =>
    c.isDigit &&
      (match rest.dropWhile Char.isDigit with
       | d :: _ => d == '.'
       | [] => false)

/-- `^(Chapter|CHAPTER)\s+\d+` with `re.IGNORECASE` (both alternatives
collapse to one case-insensitive literal). -/
def re_chapter_ci (s : List Char) : Bool :=
  (reqDigits1 (reqWs1 (dropLitCI "Chapter".data s))).isSome

/-- `^(Section|SECTION)\s+\d+` with `re.IGNORECASE`. -/
def re_section_ci (s : List Char) : Bool :=
  (reqDigits1 (reqWs1 (dropLitCI "Section".data s))).isSome

/-- `^(Chapter|CHAPTER)\s+\d+`, case-sensitive (as in
`_classify_heading_level`). -/
def re_chapter_cs (s : List Char) : Bool :=
  (reqDigits1 (reqWs1 ((dropLit "Chapter".data s).orElse
    (fun _ => dropLit "CHAPTER".data s)))).isSome

/-- `^(Section|SECTION)\s+\d+`, case-sensitive. -/
def re_section_cs (s : List Char) : Bool :=
  (reqDigits1 (reqWs1 ((dropLit "Section".data s).orElse
    (fun _ => dropLit "SECTION".data s)))).isSome

/-- `^\d+\.\s+`. -/
def re_num_dot_sp (s : List Char) : Bool :=
  (reqWs1 (reqChar '.' (reqDigits1 (some s)))).isSome

/-- `^\d+\.\d+\s+`. -/
def re_num_num_sp (s : List Char) : Bool :=
  (reqWs1 (reqDigits1 (reqChar '.' (reqDigits1 (some s))))).isSome

/-- `^\d+\.\d+\.\d+\s+`. -/
def re_num_num_num_sp (s : List Char) : Bool :=
  (reqWs1 (reqDigits1 (reqChar '.' (reqDigits1 (reqChar '.'
    (reqDigits1 (some s))))))).isSome

/-- Character class `[IVX]` under `re.IGNORECASE`. -/
def isRomanCI (c : Char) : Bool :=
  c = 'I' || c = 'V' || c = 'X' || c = 'i' || c = 'v' || c = 'x'

/-- `^[IVX]+\.\s+` with `re.IGNORECASE`. -/
def re_roman_ci (s : List Char) : Bool :=
  (reqWs1 (reqChar '.' ((some s).bind (drop1While isRomanCI)))).isSome

/-- ASCII letter, i.e. `[A-Z]` or `[a-z]` under `re.IGNORECASE`. -/
def isAsciiLetter (c : Char) : Bool := c.isUpper || c.isLower

/-- `^[A-Z]\.\s+` with `re.IGNORECASE`. -/
def re_letter_dot_ci (s : List Char) : Bool :=
  (reqWs1 (reqChar '.' (reqOne isAsciiLetter (some s)))).isSome

/-- `^[a-z]\)\s+` with `re.IGNORECASE`. -/
def re_letter_paren_ci (s : List Char) : Bool :=
  (reqWs1 (reqChar ')' (reqOne isAsciiLetter (some s)))).isSome

/-- `^\(\d+\)\s+`. -/
def re_paren_num (s : List Char) : Bool :=
  (reqWs1 (reqChar ')' (reqDigits1 (reqChar '(' (some s))))).isSome

/-- `^â€¢\s+` (the bullet pattern appears in the source file as the three
mojibake characters of `•`). -/
def re_bullet (s : List Char) : Bool :=
  (reqWs1 (dropLit "â€¢".data s)).isSome

/-- `^-\s+`. -/
def re_dash (s : List Char) : Bool :=
  (reqWs1 (reqChar '-' (some s))).isSome

/-- The scorer's pattern loop (`self.heading_patterns`, all matched with
`re.IGNORECASE`; the loop breaks at the first match, and every match adds
the same 0.3, so only matched-or-not is observable). -/
def heading_patterns_match (s : List Char) : Bool :=
  re_chapter_ci s || re_section_ci s || re_num_dot_sp s || re_num_num_sp s ||
  re_num_num_num_sp s || re_roman_ci s || re_letter_dot_ci s ||
  re_letter_paren_ci s || re_paren_num s || re_bullet s || re_dash s

/-- `self.heading_keywords`. -/
def heading_keywords : List (List Char) :=
  ["introduction".data, "conclusion".data, "summary".data, "overview".data,
   "background".data, "methodology".data, "results".data, "discussion".data,
   "analysis".data, "findings".data, "recommendations".data, "references".data,
   "bibliography".data, "appendix".data, "abstract".data, "executive".data,
   "foreword".data, "preface".data, "acknowledgments".data]

/-- The scorer's keyword loop (first match only; every match adds the same
0.1). -/
def keywords_match (text_lower : List Char) : Bool :=
  heading_keywords.any (fun k => list_contains_sub k text_lower)

/-! ### HeadingDetector -/

/-- Heading levels H1/H2/H3 (the strings returned by
`_classify_heading_level`). -/
inductive HLevel
  | H1
  | H2
  | H3
  deriving DecidableEq

/-- `sum(self.font_sizes_seen) / len(self.font_sizes_seen) if
self.font_sizes_seen else 12` (line 113). -/
def profile_average (sizes : List ℚ) : ℚ :=
  if sizes ≠ [] then sizes.sum / sizes.length else 12

/-- `_is_potential_heading` (lines 90-104). -/
def is_potential_heading (text : List Char) : Bool :=
  if (pyStrip text).length < 3 ∨ (pyStrip text).length > 200 then false
  else if word_count text > 20 then false
  else if (match text.head? with | some c => c.isLower | none => false) = true
            ∧ re_num_dot text = false then false
  else true

/-- `bbox[1] if bbox else 0` (line 144). -/
def bbox_y (bbox : List ℚ) : ℚ :=
  if bbox ≠ [] then bbox.getD 1 0 else 0

/-- `y_position / page_height if page_height > 0 else 0` (line 145). -/
def relative_position (bbox : List ℚ) (page_height : ℚ) : ℚ :=
  if page_height > 0 then bbox_y bbox / page_height else 0

/-- Font-size-ratio signal of the scorer (lines 112-117), as a standalone
contribution. -/
def sig_font_size (sizes : List ℚ) (font_size : ℚ) : ℚ :=
  if font_size > profile_average sizes * (12/10) then 3/10
  else if font_size > profile_average sizes * (11/10) then 2/10
  else 0

/-- Bold-flag signal (`flags & 2**4`, lines 120-121). -/
def sig_bold (flags : Nat) : ℚ :=
  if flags &&& 2 ^ 4 ≠ 0 then 2/10 else 0

/-- Font-name "bold"/"black" signal (lines 124-126). -/
def sig_font_bold_name (font_name : List Char) : ℚ :=
  if list_contains_sub "bold".data (pyLower font_name)
       || list_contains_sub "black".data (pyLower font_name) then 15/100 else 0

/-- Font-name "heading"/"title" signal (lines 127-128). -/
def sig_font_title_name (font_name : List Char) : ℚ :=
  if list_contains_sub "heading".data (pyLower font_name)
       || list_contains_sub "title".data (pyLower font_name) then 2/10 else 0

/-- Leading-pattern signal (lines 131-134). -/
def sig_pattern (text : List Char) : ℚ :=
  if heading_patterns_match text then 3/10 else 0

/-- Keyword signal (lines 137-141). -/
def sig_keyword (text : List Char) : ℚ :=
  if keywords_match (pyLower text) then 1/10 else 0

/-- Page-position signal (lines 143-147). -/
def sig_position (bbox : List ℚ) (page_height : ℚ) : ℚ :=
  if relative_position bbox page_height < 1/10 then 1/10 else 0

/-- Length signal (lines 150-152). -/
def sig_length (text : List Char) : ℚ :=
  if 10 ≤ (pyStrip text).length ∧ (pyStrip text).length ≤ 80 then 1/10 else 0

/-- Capitalization signal (lines 155-158). -/
def sig_case (text : List Char) : ℚ :=
  if py_isupper text then 1/10
  else if py_istitle text then 5/100
  else 0

/-- `_calculate_heading_confidence` (lines 106-160), transcribed as the
sequential accumulation of the source. -/
def calculate_heading_confidence (sizes : List ℚ) (text : List Char)
    (font_size : ℚ) (font_name : List Char) (flags : Nat) (bbox : List ℚ)
    (page_height : ℚ) : ℚ :=
  let confidence : ℚ := 0
  let avg_font_size := profile_average sizes
  let confidence :=
    if font_size > avg_font_size * (12/10) then confidence + 3/10
    else if font_size > avg_font_size * (11/10) then confidence + 2/10
    else confidence
  let confidence := if flags &&& 2 ^ 4 ≠ 0 then confidence + 2/10 else confidence
  let font_lower := pyLower font_name
  let confidence :=
    if list_contains_sub "bold".data font_lower
         || list_contains_sub "black".data font_lower then confidence + 15/100
    else confidence
  let confidence :=
    if list_contains_sub "heading".data font_lower
         || list_contains_sub "title".data font_lower then confidence + 2/10
    else confidence
  let confidence :=
    if heading_patterns_match text then confidence + 3/10 else confidence
  let confidence :=
    if keywords_match (pyLower text) then confidence + 1/10 else confidence
  let confidence :=
    if relative_position bbox page_height < 1/10 then confidence + 1/10
    else confidence
  let text_length := (pyStrip text).length
  let confidence :=
    if 10 ≤ text_length ∧ text_length ≤ 80 then confidence + 1/10
    else confidence
  let confidence :=
    if py_isupper text then confidence + 1/10
    else if py_istitle text then confidence + 5/100
    else confidence
  min confidence 1

/-- Adaptive H1 threshold (lines 166-177). -/
def h1_threshold (sizes : List ℚ) : ℚ :=
  if sizes ≠ [] then max (profile_average sizes * (14/10)) 16 else 16

/-- Adaptive H2 threshold (lines 166-177). -/
def h2_threshold (sizes : List ℚ) : ℚ :=
  if sizes ≠ [] then max (profile_average sizes * (12/10)) 14 else 14

/-- Adaptive H3 threshold (lines 166-177). -/
def h3_threshold (sizes : List ℚ) : ℚ :=
  if sizes ≠ [] then max (profile_average sizes * (11/10)) 12 else 12

/-- `_classify_heading_level` (lines 162-205).  The `flags` parameter of the
source is unused there and omitted; `max_font` is computed but never used
in the source and is omitted likewise. -/
def classify_heading_level (sizes : List ℚ) (text : List Char)
    (font_size : ℚ) (confidence : ℚ) : Option HLevel :=
  if re_chapter_cs text then some HLevel.H1
  else if re_section_cs text then some HLevel.H2
  else if re_num_dot_sp text then some HLevel.H1
  else if re_num_num_sp text then some HLevel.H2
  else if re_num_num_num_sp text then some HLevel.H3
  else if font_size ≥ h1_threshold sizes ∧ confidence > 5/10 then some HLevel.H1
  else if font_size ≥ h2_threshold sizes ∧ confidence > 4/10 then some HLevel.H2
  else if font_size ≥ h3_threshold sizes ∧ confidence > 3/10 then some HLevel.H3
  else if confidence > 5/10 then some HLevel.H2
  else if confidence > 4/10 then some HLevel.H3
  else none

/-- `[.,:;!?]`. -/
def is_punct (c : Char) : Bool :=
  c = '.' || c = ',' || c = ':' || c = ';' || c = '!' || c = '?'

/-- `re.sub(r'[.,:;!?]+$', '', text)`: remove the maximal trailing run of
punctuation. -/
def strip_trailing_punct (s : List Char) : List Char :=
  (s.reverse.dropWhile is_punct).reverse

/-- `_clean_heading_text` (lines 207-216). -/
def clean_heading_text (text : List Char) : List Char :=
  let t := pyStrip (collapseWs text)
  if re_num_dot t then t else strip_trailing_punct t

/-- `analyze_text` (lines 47-88).  The mutable `self.font_sizes_seen` is
threaded explicitly: the result pairs the optional heading record with the
updated profile.  Line 64 appends the font size before any filtering. -/
def analyze_text (sizes : List ℚ) (text : List Char) (font_size : ℚ)
    (font_name : List Char) (flags : Nat) (bbox : List ℚ)
    (page_height : ℚ) : Option (HLevel × List Char) × List ℚ :=
  let sizes2 := sizes ++ [font_size]
  let result : Option (HLevel × List Char) :=
    if ¬ is_potential_heading text then none
    else
      let confidence :=
        calculate_heading_confidence sizes2 text font_size font_name flags
          bbox page_height
      if confidence < 3/10 then none
      else
        match classify_heading_level sizes2 text font_size confidence with
        | some level => some (level, clean_heading_text text)
        | none => none
  (result, sizes2)

/-- The five lexical-override patterns of `_classify_heading_level`
(lines 180-189), as one test. -/
def lexical_override (text : List Char) : Bool :=
  re_chapter_cs text || re_section_cs text || re_num_dot_sp text ||
  re_num_num_sp text || re_num_num_num_sp text

/-! ### Span-level pipeline of `pdf_extractor.py` -/

/-- A raw span record as read from the parser dictionary in
`_extract_outline` (lines 165-179); `none` models an absent key. -/
structure RawSpan where
  text : Option (List Char)
  size : Option ℚ
  font : Option (List Char)
  flags : Option Nat
  bbox : Option (List ℚ)
  deriving DecidableEq

/-- The per-span body of `_extract_outline` (lines 165-179): strip the text,
skip empty spans, otherwise call `analyze_text` with the dictionary
defaults `size → 12`, `font → ""`, `flags → 0`, `bbox → [0,0,0,0]`. -/
def process_span (sizes : List ℚ) (sp : RawSpan) (page_height : ℚ) :
    Option (HLevel × List Char) × List ℚ :=
  let text := pyStrip (sp.text.getD [])
  if text = [] then (none, sizes)
  else
    analyze_text sizes text (sp.size.getD 12) (sp.font.getD [])
      (sp.flags.getD 0) (sp.bbox.getD [0, 0, 0, 0]) page_height

/-! ### Title resolver of `pdf_extractor.py` (`_extract_title`) -/

/-- A first-page title candidate: stripped span text, font size, line `y0`. -/
structure TitleSpan where
  text : List Char
  size : ℚ
  y : ℚ
  deriving DecidableEq

/-- The candidate filter of `_extract_title` (lines 111-128): keep spans in
the top third of the page whose stripped text is non-empty with length > 5
and whose font size exceeds 12; the stored text is the stripped one. -/
def title_candidates (spans : List TitleSpan) (page_height : ℚ) :
    List TitleSpan :=
  spans.filterMap fun sp =>
    if sp.y < page_height / 3 then
      let t := pyStrip sp.text
      if t ≠ [] ∧ t.length > 5 ∧ sp.size > 12 then some ⟨t, sp.size, sp.y⟩
      else none
    else none

/-- The sort key `lambda x: (-x["size"], x["y"])` of line 131, as a
non-strict total order (Python's sort is a stable sort by this key). -/
def title_le (a b : TitleSpan) : Prop :=
  b.size < a.size ∨ (a.size = b.size ∧ a.y ≤ b.y)

instance : DecidableRel title_le := fun a b => by
  unfold title_le; infer_instance

instance : IsTotal TitleSpan title_le := by
  constructor
  intro a b
  unfold title_le
  rcases lt_trichotomy a.size b.size with h | h | h
  · exact Or.inr (Or.inl h)
  · rcases le_total a.y b.y with hy | hy
    · exact Or.inl (Or.inr ⟨h, hy⟩)
    · exact Or.inr (Or.inr ⟨h.symm, hy⟩)
  · exact Or.inl (Or.inl h)

instance : IsTrans TitleSpan title_le := by
  constructor
  intro a b c hab hbc
  unfold title_le at *
  rcases hab with h1 | ⟨h1, h1y⟩ <;> rcases hbc with h2 | ⟨h2, h2y⟩
  · exact Or.inl (h2.trans h1)
  · exact Or.inl (h2 ▸ h1)
  · exact Or.inl (h1 ▸ h2)
  · exact Or.inr ⟨h1.trans h2, h1y.trans h2y⟩

/-- `_extract_title` (lines 84-139) restricted to its decision logic: the
metadata title is used when present, non-empty (Python truthiness before
and after `strip()`) and of stripped length < 200; otherwise the first-page
candidates are sorted by descending size then ascending `y` and the first
one is whitespace-collapsed and stripped; otherwise the fixed fallback. -/
def resolve_title (metadata_title : Option (List Char))
    (spans : List TitleSpan) (page_height : ℚ) : List Char :=
  let meta : Option (List Char) :=
    match metadata_title with
    | some mt =>
      if mt ≠ [] then
        let t := pyStrip mt
        if t ≠ [] ∧ t.length < 200 then some t else none
      else none
    | none => none
  match meta with
  | some t => t
  | none =>
    match List.insertionSort title_le (title_candidates spans page_height) with
    | c :: _ => pyStrip (collapseWs c.text)
    | [] => "Untitled Document".data

/-- Whitespace-normal form (the shape of `re.sub(r'\s+', ' ', ...)` output):
every whitespace character is a plain space and no two whitespace
characters are adjacent. -/
def ws_normal (s : List Char) : Prop :=
  (∀ c ∈ s, pyIsSpace c = true → c = ' ') ∧
  List.Chain' (fun a b => ¬(pyIsSpace a = true ∧ pyIsSpace b = true)) s

/-! ### Helper lemmas -/

/-- Rewrite one additive accumulation step of the scorer. -/
lemma ite_add_step (P : Prop) [Decidable P] (c a : ℚ) :
    (if P then c + a else c) = c + (if P then a else 0) := by
  split <;> simp

/-- Rewrite one two-branch accumulation step of the scorer. -/
lemma ite_add_step2 (P Q : Prop) [Decidable P] [Decidable Q] (c a b : ℚ) :
    (if P then c + a else if Q then c + b else c) =
      c + (if P then a else if Q then b else 0) := by
  split
  · simp
  · split <;> simp

/-- The sequential accumulation of `_calculate_heading_confidence` equals the
clamped sum of the nine independent signal contributions. -/
lemma calculate_heading_confidence_eq (sizes : List ℚ) (text : List Char)
    (font_size : ℚ) (font_name : List Char) (flags : Nat) (bbox : List ℚ)
    (page_height : ℚ) :
    calculate_heading_confidence sizes text font_size font_name flags bbox
        page_height =
      min (sig_font_size sizes font_size + sig_bold flags +
        sig_font_bold_name font_name + sig_font_title_name font_name +
        sig_pattern text + sig_keyword text + sig_position bbox page_height +
        sig_length text + sig_case text) 1 := by
  simp only [calculate_heading_confidence, ite_add_step2]
  simp only [ite_add_step]
  simp only [sig_font_size, sig_bold, sig_font_bold_name, sig_font_title_name,
    sig_pattern, sig_keyword, sig_position, sig_length, sig_case]
  congr 1
  ring

lemma sig_font_size_nonneg (sizes : List ℚ) (font_size : ℚ) :
    0 ≤ sig_font_size sizes font_size := by
  unfold sig_font_size; split_ifs <;> norm_num

lemma sig_bold_nonneg (flags : Nat) : 0 ≤ sig_bold flags := by
  unfold sig_bold; split_ifs <;> norm_num

lemma sig_font_bold_name_nonneg (fn : List Char) :
    0 ≤ sig_font_bold_name fn := by
  unfold sig_font_bold_name; split_ifs <;> norm_num

lemma sig_font_title_name_nonneg (fn : List Char) :
    0 ≤ sig_font_title_name fn := by
  unfold sig_font_title_name; split_ifs <;> norm_num

lemma sig_pattern_nonneg (text : List Char) : 0 ≤ sig_pattern text := by
  unfold sig_pattern; split_ifs <;> norm_num

lemma sig_keyword_nonneg (text : List Char) : 0 ≤ sig_keyword text := by
  unfold sig_keyword; split_ifs <;> norm_num

lemma sig_position_nonneg (bbox : List ℚ) (ph : ℚ) :
    0 ≤ sig_position bbox ph := by
  unfold sig_position; split_ifs <;> norm_num

lemma sig_length_nonneg (text : List Char) : 0 ≤ sig_length text := by
  unfold sig_length; split_ifs <;> norm_num

lemma sig_case_nonneg (text : List Char) : 0 ≤ sig_case text := by
  unfold sig_case; split_ifs <;> norm_num

lemma collapseWs_head_not_space (d : Char) (r : List Char)
    (hd : pyIsSpace d = false) : ∃ t, collapseWs (d :: r) = d :: t := by
  cases r with
  | nil => exact ⟨[], by simp [collapseWs, hd]⟩
  | cons e r2 => exact ⟨collapseWs (e :: r2), by simp [collapseWs, hd]⟩

lemma ws_normal_collapseWs (s : List Char) : ws_normal (collapseWs s) := by
  induction s with
  | nil => exact ⟨by simp [collapseWs], by simp [collapseWs]⟩
  | cons c rest ih =>
    cases rest with
    | nil =>
      unfold collapseWs
      split_ifs with hc
      · refine ⟨?_, List.chain'_singleton _⟩
        intro x hx hw
        simp only [List.mem_singleton] at hx
        exact hx
      · refine ⟨?_, List.chain'_singleton _⟩
        intro x hx hw
        simp only [List.mem_singleton] at hx
        subst hx
        exact absurd hw hc
    | cons d r2 =>
      unfold collapseWs
      split_ifs with hc hd
      · exact ih
      · have hd' : pyIsSpace d = false := by
          cases hq : pyIsSpace d
          · rfl
          · exact absurd hq hd
        obtain ⟨t, ht⟩ := collapseWs_head_not_space d r2 hd'
        rw [ht]
        rw [ht] at ih
        constructor
        · intro x hx hw
          rcases List.mem_cons.mp hx with rfl | hx2
          · rfl
          · exact ih.1 x hx2 hw
        · rw [List.chain'_cons]
          refine ⟨?_, ih.2⟩
          rintro ⟨-, hwd⟩
          rw [hwd] at hd'
          exact Bool.true_eq_false.mp hd'
      · constructor
        · intro x hx hw
          rcases List.mem_cons.mp hx with rfl | hx2
          · exact absurd hw hc
          · exact ih.1 x hx2 hw
        · rw [List.chain'_cons']
          refine ⟨?_, ih.2⟩
          intro y hy
          rintro ⟨hwc, -⟩
          exact hc hwc

lemma ws_normal_mono {s t : List Char} (hst : s <:+: t) (h : ws_normal t) :
    ws_normal s :=
  ⟨fun c hc hw => h.1 c (hst.sublist.subset hc) hw, List.Chain'.infix h.2 hst⟩

lemma pyStrip_prefix_core (s : List Char) :
    pyStrip s <+: s.dropWhile pyIsSpace := by
  unfold pyStrip
  have h2 : ((s.dropWhile pyIsSpace).reverse.dropWhile pyIsSpace).reverse <+:
      ((s.dropWhile pyIsSpace).reverse).reverse :=
    List.reverse_prefix.mpr (List.dropWhile_suffix pyIsSpace)
  rwa [List.reverse_reverse] at h2

lemma pyStrip_within (s : List Char) : pyStrip s <:+: s :=
  (pyStrip_prefix_core s).isInfix.trans
    (List.dropWhile_suffix pyIsSpace).isInfix

lemma head?_pyStrip (s : List Char) :
    ∀ c ∈ (pyStrip s).head?, pyIsSpace c = false := by
  intro c hc
  obtain ⟨r, hr⟩ := pyStrip_prefix_core s
  cases hw : pyStrip s with
  | nil => rw [hw] at hc; simp at hc
  | cons a t =>
    rw [hw] at hc
    have hac : a = c := by simpa using hc
    have hhd : (s.dropWhile pyIsSpace).head? = some a := by
      rw [← hr, hw]; simp
    have h2 := List.head?_dropWhile_not pyIsSpace s
    rw [hhd] at h2
    rw [← hac]
    exact h2

lemma getLast?_pyStrip (s : List Char) :
    ∀ c ∈ (pyStrip s).getLast?, pyIsSpace c = false := by
  intro c hc
  unfold pyStrip at hc
  rw [List.getLast?_reverse] at hc
  have h2 := List.head?_dropWhile_not pyIsSpace (s.dropWhile pyIsSpace).reverse
  cases hq : ((s.dropWhile pyIsSpace).reverse.dropWhile pyIsSpace).head? with
  | none => rw [hq] at hc; simp at hc
  | some a =>
    rw [hq] at hc
    have hac : a = c := by simpa using hc
    rw [hq] at h2
    rw [← hac]
    exact h2

lemma ws_normal_tail {c : Char} {rest : List Char}
    (h : ws_normal (c :: rest)) : ws_normal rest :=
  ⟨fun x hx hw => h.1 x (List.mem_cons_of_mem c hx) hw, h.2.tail⟩

lemma collapseWs_eq_self {s : List Char} (h : ws_normal s) :
    collapseWs s = s := by
  induction s with
  | nil => rfl
  | cons c rest ih =>
    cases rest with
    | nil =>
      unfold collapseWs
      split_ifs with hc
      · rw [h.1 c (by simp) hc]
      · rfl
    | cons d r2 =>
      have htail : ws_normal (d :: r2) := ws_normal_tail h
      unfold collapseWs
      split_ifs with hc hd
      · exfalso
        have h2 := h.2
        rw [List.chain'_cons] at h2
        exact h2.1 ⟨hc, hd⟩
      · rw [ih htail, h.1 c (by simp) hc]
      · rw [ih htail]

lemma dropWhile_eq_self_of_head {p : Char → Bool} {s : List Char}
    (h : ∀ c ∈ s.head?, p c = false) : s.dropWhile p = s := by
  cases s with
  | nil => rfl
  | cons a t =>
    rw [List.dropWhile_cons, if_neg]
    simp [h a (by simp)]

lemma pyStrip_eq_self {s : List Char}
    (hh : ∀ c ∈ s.head?, pyIsSpace c = false)
    (hl : ∀ c ∈ s.getLast?, pyIsSpace c = false) : pyStrip s = s := by
  unfold pyStrip
  rw [dropWhile_eq_self_of_head hh]
  rw [dropWhile_eq_self_of_head
    (by intro c hc; rw [List.head?_reverse] at hc; exact hl c hc)]
  exact List.reverse_reverse s

lemma strip_trailing_punct_pre (s : List Char) :
    strip_trailing_punct s <+: s := by
  unfold strip_trailing_punct
  have h2 : (s.reverse.dropWhile is_punct).reverse <+:
      (s.reverse).reverse :=
    List.reverse_prefix.mpr (List.dropWhile_suffix is_punct)
  rwa [List.reverse_reverse] at h2

lemma getLast?_strip_trailing_punct (s : List Char) :
    ∀ c ∈ (strip_trailing_punct s).getLast?, is_punct c = false := by
  intro c hc
  unfold strip_trailing_punct at hc
  rw [List.getLast?_reverse] at hc
  have h2 := List.head?_dropWhile_not is_punct s.reverse
  cases hq : (s.reverse.dropWhile is_punct).head? with
  | none => rw [hq] at hc; simp at hc
  | some a =>
    rw [hq] at hc
    have hac : a = c := by simpa using hc
    rw [hq] at h2
    rw [← hac]
    exact h2

lemma strip_trailing_punct_eq_self {s : List Char}
    (h : ∀ c ∈ s.getLast?, is_punct c = false) :
    strip_trailing_punct s = s := by
  unfold strip_trailing_punct
  rw [dropWhile_eq_self_of_head
    (by intro c hc; rw [List.head?_reverse] at hc; exact h c hc)]
  exact List.reverse_reverse s

lemma re_num_dot_append {y : List Char} (r : List Char)
    (h : re_num_dot y = true) : re_num_dot (y ++ r) = true := by
  cases y with
  | nil => simp [re_num_dot] at h
  | cons c ys =>
    simp only [re_num_dot, List.cons_append] at h ⊢
    rw [Bool.and_eq_true] at h ⊢
    refine ⟨h.1, ?_⟩
    have h2 := h.2
    rcases hd : ys.dropWhile Char.isDigit with _ | ⟨a, z⟩
    · rw [hd] at h2; simp at h2
    · rw [hd] at h2
      have ha : a = '.' := by simpa using h2
      rw [List.dropWhile_append, hd]
      simp [ha]

lemma re_num_dot_mono {y t : List Char} (hp : y <+: t)
    (h : re_num_dot y = true) : re_num_dot t = true := by
  obtain ⟨r, rfl⟩ := hp
  exact re_num_dot_append r h

/-! ### Claim theorems -/

/-- C1, counterexample: the span "ab" is rejected by the prefilter, yet its
font size 10 is recorded into the (initially empty) profile by
`analyze_text`. -/
theorem c1_counterexample :
    is_potential_heading "ab".data = false ∧
    (analyze_text [] "ab".data 10 [] 0 [] 0).2 = [10] ∧
    ([10] : List ℚ) ≠ [] := by
  refine ⟨by decide, rfl, by simp⟩

/-- C1 (amended): `analyze_text` appends the span's font size to the
document font profile unconditionally, before the prefilter runs, so the
profile after any call equals the old profile with the font size appended —
whether or not the prefilter rejects the span. -/
theorem c1_profile_always_records (sizes : List ℚ) (text : List Char)
    (font_size : ℚ) (font_name : List Char) (flags : Nat) (bbox : List ℚ)
    (page_height : ℚ) :
    (analyze_text sizes text font_size font_name flags bbox page_height).2 =
      sizes ++ [font_size] := rfl

/-- C2: in `_classify_heading_level` the five lexical patterns are checked
before any font-size tier, first match winning, with results Chapter→H1,
Section→H2, `<num>. `→H1, `<num>.<num> `→H2, `<num>.<num>.<num> `→H3 —
regardless of font size, profile statistics, and confidence. -/
theorem c2_lexical_priority (sizes : List ℚ) (text : List Char)
    (font_size confidence : ℚ) :
    (re_chapter_cs text = true →
      classify_heading_level sizes text font_size confidence = some HLevel.H1) ∧
    (re_chapter_cs text = false → re_section_cs text = true →
      classify_heading_level sizes text font_size confidence = some HLevel.H2) ∧
    (re_chapter_cs text = false → re_section_cs text = false →
      re_num_dot_sp text = true →
      classify_heading_level sizes text font_size confidence = some HLevel.H1) ∧
    (re_chapter_cs text = false → re_section_cs text = false →
      re_num_dot_sp text = false → re_num_num_sp text = true →
      classify_heading_level sizes text font_size confidence = some HLevel.H2) ∧
    (re_chapter_cs text = false → re_section_cs text = false →
      re_num_dot_sp text = false → re_num_num_sp text = false →
      re_num_num_num_sp text = true →
      classify_heading_level sizes text font_size confidence = some HLevel.H3) := by
  unfold classify_heading_level
  refine ⟨?_, ?_, ?_, ?_, ?_⟩ <;> intros <;> simp_all

/-- C2, witness: "Chapter 3 Results" classifies H1 with font size equal to
the document average and middling confidence, and "1.2 Methods" classifies
H2 likewise. -/
theorem c2_witness :
    classify_heading_level [12] "Chapter 3 Results".data 12 (35/100) =
      some HLevel.H1 ∧
    classify_heading_level [12] "1.2 Methods".data 12 (35/100) =
      some HLevel.H2 :=
  ⟨(c2_lexical_priority [12] "Chapter 3 Results".data 12 (35/100)).1
      (by decide),
   (c2_lexical_priority [12] "1.2 Methods".data 12 (35/100)).2.2.2.1
      (by decide) (by decide) (by decide) (by decide)⟩

/-- C5: the confidence is always within [0,1]: it is the sum of the nine
non-negative signal contributions clamped above at 1. -/
theorem c5_confidence_in_unit_interval (sizes : List ℚ) (text : List Char)
    (font_size : ℚ) (font_name : List Char) (flags : Nat) (bbox : List ℚ)
    (page_height : ℚ) :
    0 ≤ calculate_heading_confidence sizes text font_size font_name flags
          bbox page_height ∧
    calculate_heading_confidence sizes text font_size font_name flags bbox
          page_height ≤ 1 := by
  rw [calculate_heading_confidence_eq]
  constructor
  · refine le_min ?_ (by norm_num)
    have h1 := sig_font_size_nonneg sizes font_size
    have h2 := sig_bold_nonneg flags
    have h3 := sig_font_bold_name_nonneg font_name
    have h4 := sig_font_title_name_nonneg font_name
    have h5 := sig_pattern_nonneg text
    have h6 := sig_keyword_nonneg text
    have h7 := sig_position_nonneg bbox page_height
    have h8 := sig_length_nonneg text
    have h9 := sig_case_nonneg text
    linarith
  · exact min_le_right _ _

/-- C6: the confidence is monotone in the signal vector: if every signal
contribution of one span-and-profile configuration is less than or equal to
the corresponding contribution of another, the resulting confidence cannot
decrease; in particular toggling any single positive signal from absent to
present while holding the others fixed is non-decreasing. -/
theorem c6_signal_monotone (sizes1 : List ℚ) (text1 : List Char)
    (font_size1 : ℚ) (font_name1 : List Char) (flags1 : Nat)
    (bbox1 : List ℚ) (page_height1 : ℚ) (sizes2 : List ℚ)
    (text2 : List Char) (font_size2 : ℚ) (font_name2 : List Char)
    (flags2 : Nat) (bbox2 : List ℚ) (page_height2 : ℚ)
    (h1 : sig_font_size sizes1 font_size1 ≤ sig_font_size sizes2 font_size2)
    (h2 : sig_bold flags1 ≤ sig_bold flags2)
    (h3 : sig_font_bold_name font_name1 ≤ sig_font_bold_name font_name2)
    (h4 : sig_font_title_name font_name1 ≤ sig_font_title_name font_name2)
    (h5 : sig_pattern text1 ≤ sig_pattern text2)
    (h6 : sig_keyword text1 ≤ sig_keyword text2)
    (h7 : sig_position bbox1 page_height1 ≤ sig_position bbox2 page_height2)
    (h8 : sig_length text1 ≤ sig_length text2)
    (h9 : sig_case text1 ≤ sig_case text2) :
    calculate_heading_confidence sizes1 text1 font_size1 font_name1 flags1
        bbox1 page_height1 ≤
      calculate_heading_confidence sizes2 text2 font_size2 font_name2 flags2
        bbox2 page_height2 := by
  rw [calculate_heading_confidence_eq, calculate_heading_confidence_eq]
  refine min_le_min ?_ le_rfl
  gcongr

/-- C6, witness: toggling the bold flag from absent to present on an
otherwise fixed span does not decrease the confidence. -/
theorem c6_witness :
    sig_bold 0 ≤ sig_bold 16 ∧
    calculate_heading_confidence [12] "ABC".data 12 [] 0 [] 0 ≤
      calculate_heading_confidence [12] "ABC".data 12 [] 16 [] 0 :=
  ⟨by norm_num [sig_bold],
   c6_signal_monotone [12] "ABC".data 12 [] 0 [] 0 [12] "ABC".data 12 [] 16
     [] 0 le_rfl (by norm_num [sig_bold]) le_rfl le_rfl le_rfl le_rfl le_rfl
     le_rfl le_rfl⟩

/-- C4, counterexample: a text of exactly 200 trimmed characters is
accepted by the prefilter (the source rejects only lengths strictly
greater than 200), contradicting the claimed rejection at 200. -/
theorem c4_counterexample : is_potential_heading (List.replicate 200 'A') = true := by
  decide

/-- C4 (amended): the prefilter rejects texts of trimmed length strictly
greater than 200; texts of trimmed length 200 and 199 (all else equal,
word count ≤ 20, uppercase start) are accepted. -/
theorem c4_length_boundary :
    (∀ text : List Char, 200 < (pyStrip text).length →
      is_potential_heading text = false) ∧
    is_potential_heading (List.replicate 200 'A') = true ∧
    is_potential_heading (List.replicate 199 'A') = true := by
  refine ⟨?_, by decide, by decide⟩
  intro t h
  unfold is_potential_heading
  rw [if_pos (Or.inr h)]

/-- C4, witness: a 201-character text has trimmed length above 200 and is
rejected. -/
theorem c4_witness :
    200 < (pyStrip (List.replicate 201 'A')).length ∧
    is_potential_heading (List.replicate 201 'A') = false :=
  ⟨by decide, c4_length_boundary.1 (List.replicate 201 'A') (by decide)⟩

/-- C8, counterexample: a span carrying a present-but-zero font size is
processed with font size 0, not 12 — the recorded profile entry is 0 —
whereas the claim says a zero font size is treated as 12. -/
theorem c8_counterexample :
    (process_span []
        ⟨some "Overview".data, some 0, some [], some 0, some [0, 0, 0, 0]⟩
        100).2 = [(0 : ℚ)] ∧
    (process_span []
        ⟨some "Overview".data, some 12, some [], some 0, some [0, 0, 0, 0]⟩
        100).2 = [(12 : ℚ)] ∧
    (0 : ℚ) ≠ 12 := by
  refine ⟨rfl, rfl, by norm_num⟩

/-- C8 (amended): the pipeline is total over spans with missing fields via
explicit defaults — an absent bounding box is treated as (0,0,0,0), an
absent font size as 12, and a non-positive page height makes the relative
vertical position 0 (the division is guarded) — while a present zero font
size is passed through as 0, not replaced by 12. -/
theorem c8_defaults (sizes : List ℚ) (t : Option (List Char)) (s : Option ℚ)
    (f : Option (List Char)) (fl : Option Nat) (b : Option (List ℚ))
    (page_height : ℚ) :
    process_span sizes ⟨t, s, f, fl, none⟩ page_height =
      process_span sizes ⟨t, s, f, fl, some [0, 0, 0, 0]⟩ page_height ∧
    process_span sizes ⟨t, none, f, fl, b⟩ page_height =
      process_span sizes ⟨t, some 12, f, fl, b⟩ page_height ∧
    (page_height ≤ 0 → ∀ bbox : List ℚ, relative_position bbox page_height = 0) := by
  refine ⟨rfl, rfl, ?_⟩
  intro hph bbox
  unfold relative_position
  rw [if_neg (by linarith)]

/-- C8, witness: at page height 0 the relative position of any bounding box
is 0. -/
theorem c8_witness :
    (0 : ℚ) ≤ 0 ∧ relative_position [0, 50, 0, 0] 0 = 0 :=
  ⟨le_rfl,
   (c8_defaults [] (some "X".data) none (some []) (some 0) (some []) 0).2.2
     le_rfl [0, 50, 0, 0]⟩

/-- C9: for the first span of a document run the profile after
`analyze_text` is exactly the singleton of the span's own size, the running
average equals the span's size (the empty-profile fallback 12 is not
consulted), and the font-size-ratio signal contributes 0. -/
theorem c9_first_span_ratio_zero (text font_name : List Char)
    (font_size : ℚ) (flags : Nat) (bbox : List ℚ) (page_height : ℚ)
    (h : 0 ≤ font_size) :
    (analyze_text [] text font_size font_name flags bbox page_height).2 =
      [font_size] ∧
    ([font_size] : List ℚ) ≠ [] ∧
    profile_average [font_size] = font_size ∧
    sig_font_size [font_size] font_size = 0 := by
  have havg : profile_average [font_size] = font_size := by
    simp [profile_average]
  refine ⟨rfl, by simp, havg, ?_⟩
  unfold sig_font_size
  rw [havg]
  split_ifs with h1 h2
  · linarith
  · linarith
  · rfl

/-- C9, witness: the first span with font size 12 yields the profile [12],
average 12, and a zero ratio signal. -/
theorem c9_witness :
    (0 : ℚ) ≤ 12 ∧
    ((analyze_text [] "Introduction".data 12 [] 0 [] 0).2 = [12] ∧
      ([12] : List ℚ) ≠ [] ∧
      profile_average [12] = 12 ∧
      sig_font_size [12] 12 = 0) :=
  ⟨by norm_num,
   c9_first_span_ratio_zero "Introduction".data [] 12 0 [] 0 (by norm_num)⟩

/-- At confidence exactly 3/10 and with no lexical-override pattern, every
branch of `_classify_heading_level` fails (all tiers require a strictly
larger confidence). -/
lemma classify_at_gate_none (sizes : List ℚ) (text : List Char)
    (font_size : ℚ) (h : lexical_override text = false) :
    classify_heading_level sizes text font_size (3/10) = none := by
  have h1 : re_chapter_cs text = false := by
    cases hq : re_chapter_cs text <;> simp [lexical_override, hq] at h ⊢
  have h2 : re_section_cs text = false := by
    cases hq : re_section_cs text <;> simp [lexical_override, hq] at h ⊢
  have h3 : re_num_dot_sp text = false := by
    cases hq : re_num_dot_sp text <;> simp [lexical_override, hq] at h ⊢
  have h4 : re_num_num_sp text = false := by
    cases hq : re_num_num_sp text <;> simp [lexical_override, hq] at h ⊢
  have h5 : re_num_num_num_sp text = false := by
    cases hq : re_num_num_num_sp text <;> simp [lexical_override, hq] at h ⊢
  unfold classify_heading_level
  rw [if_neg (by simp [h1]), if_neg (by simp [h2]), if_neg (by simp [h3]),
    if_neg (by simp [h4]), if_neg (by simp [h5]),
    if_neg (by rintro ⟨-, hco⟩; norm_num at hco),
    if_neg (by rintro ⟨-, hco⟩; norm_num at hco),
    if_neg (by rintro ⟨-, hco⟩; norm_num at hco),
    if_neg (by norm_num), if_neg (by norm_num)]

/-- At confidence exactly 3/10 a lexical-override match always yields a
level. -/
lemma classify_at_gate_some (sizes : List ℚ) (text : List Char)
    (font_size : ℚ) (h : lexical_override text = true) :
    (classify_heading_level sizes text font_size (3/10)).isSome = true := by
  unfold classify_heading_level
  split_ifs <;> simp_all [lexical_override]

/-- C10: confidence exactly 3/10 passes the assembler gate (which skips
only strictly smaller values), but with no lexical-override match the
classifier returns no level — every font tier and confidence-only fallback
needs a strictly larger confidence — so `analyze_text` produces no entry;
with a lexical-override match a level is always produced. -/
theorem c10_exact_threshold (sizes : List ℚ) (text : List Char)
    (font_size : ℚ) (font_name : List Char) (flags : Nat) (bbox : List ℚ)
    (page_height : ℚ) :
    ¬((3/10 : ℚ) < 3/10) ∧
    (lexical_override text = false →
      classify_heading_level sizes text font_size (3/10) = none) ∧
    (lexical_override text = true →
      (classify_heading_level sizes text font_size (3/10)).isSome = true) ∧
    (is_potential_heading text = true →
      calculate_heading_confidence (sizes ++ [font_size]) text font_size
        font_name flags bbox page_height = 3/10 →
      lexical_override text = false →
      (analyze_text sizes text font_size font_name flags bbox
        page_height).1 = none) := by
  refine ⟨by norm_num, classify_at_gate_none sizes text font_size,
    classify_at_gate_some sizes text font_size, ?_⟩
  intro hp hc hl
  simp only [analyze_text, hp]
  rw [hc]
  rw [if_neg (by norm_num : ¬((3 : ℚ)/10 < 3/10))]
  rw [classify_at_gate_none (sizes ++ [font_size]) text font_size hl]
  simp

/-- C10, witness: the span "SUMMARY x" (bold, keyword match, no pattern)
reaches confidence exactly 3/10 and yields no outline entry. -/
theorem c10_witness :
    is_potential_heading "SUMMARY x".data = true ∧
    calculate_heading_confidence ([12] ++ [12]) "SUMMARY x".data 12 [] 16
      [0, 50, 0, 0] 100 = 3/10 ∧
    lexical_override "SUMMARY x".data = false ∧
    (analyze_text [12] "SUMMARY x".data 12 [] 16 [0, 50, 0, 0] 100).1 =
      none := by
  have hconf : calculate_heading_confidence ([12] ++ [12]) "SUMMARY x".data
      12 [] 16 [0, 50, 0, 0] 100 = 3/10 := by
    simp +decide [calculate_heading_confidence, profile_average,
      relative_position, bbox_y]
    norm_num
  exact ⟨by decide, hconf, by decide,
    (c10_exact_threshold [12] "SUMMARY x".data 12 [] 16 [0, 50, 0, 0]
        100).2.2.2 (by decide) hconf (by decide)⟩

/-- C7: with no usable metadata title, the resolver keeps exactly the
first-page spans passing the `title_candidates` filter (top third of the
page, trimmed length > 5, font size > 12) and returns the
whitespace-collapsed, trimmed text of the strictly best candidate — largest
font size, ties broken by smallest vertical position. -/
theorem c7_title_best (spans : List TitleSpan) (page_height : ℚ)
    (c : TitleSpan) (hc : c ∈ title_candidates spans page_height)
    (hbest : ∀ d ∈ title_candidates spans page_height, d ≠ c →
      d.size < c.size ∨ (d.size = c.size ∧ c.y < d.y)) :
    resolve_title none spans page_height = pyStrip (collapseWs c.text) := by
  have hperm :=
    List.perm_insertionSort title_le (title_candidates spans page_height)
  have hsorted :=
    List.sorted_insertionSort title_le (title_candidates spans page_height)
  rcases hE : List.insertionSort title_le (title_candidates spans page_height)
    with _ | ⟨h, rest⟩
  · rw [hE] at hperm
    exact absurd (hperm.symm.subset hc) (List.not_mem_nil c)
  · have hgoal : resolve_title none spans page_height =
        pyStrip (collapseWs h.text) := by
      simp only [resolve_title, hE]
    rw [hE] at hperm hsorted
    have hmem : h ∈ title_candidates spans page_height :=
      hperm.subset (List.mem_cons_self h rest)
    by_cases hhc : h = c
    · rw [hgoal, hhc]
    · have hworse := hbest h hmem hhc
      have hcs : c ∈ h :: rest := hperm.symm.subset hc
      have hcr : c ∈ rest := by
        rcases List.mem_cons.mp hcs with heq | hmr
        · exact absurd heq.symm hhc
        · exact hmr
      have hle : title_le h c := List.rel_of_sorted_cons hsorted c hcr
      exfalso
      unfold title_le at hle
      rcases hworse with hlt | ⟨heq, hy⟩ <;>
        rcases hle with hlt2 | ⟨heq2, hy2⟩ <;> linarith

/-- C7, witness: the spec scenario — spans ("BUDGET OVERVIEW", size 24,
y0 40) and ("Q3 results", size 11, y0 300) on an 800-unit page, no metadata
title — resolves to "BUDGET OVERVIEW". -/
theorem c7_witness :
    resolve_title none
      [⟨"BUDGET OVERVIEW".data, 24, 40⟩, ⟨"Q3 results".data, 11, 300⟩] 800 =
      "BUDGET OVERVIEW".data := by
  have hs1 : pyStrip "BUDGET OVERVIEW".data = "BUDGET OVERVIEW".data := by
    decide
  have hs2 : pyStrip "Q3 results".data = "Q3 results".data := by decide
  have hlen : ("BUDGET OVERVIEW".data).length = 15 := by decide
  have hcand : title_candidates
      [⟨"BUDGET OVERVIEW".data, 24, 40⟩, ⟨"Q3 results".data, 11, 300⟩] 800 =
      [⟨"BUDGET OVERVIEW".data, 24, 40⟩] := by
    simp only [title_candidates, List.filterMap_cons, List.filterMap_nil,
      hs1, hs2, hlen]
    norm_num
    simp
  have happ := c7_title_best
    [⟨"BUDGET OVERVIEW".data, 24, 40⟩, ⟨"Q3 results".data, 11, 300⟩] 800
    ⟨"BUDGET OVERVIEW".data, 24, 40⟩
    (by rw [hcand]; exact List.mem_singleton_self _)
    (by rw [hcand]; intro d hd hne; exact absurd (List.mem_singleton.mp hd) hne)
  rw [happ]
  decide

/-- C3, counterexample: normalization is not idempotent — for "A ." the
first pass strips the trailing period and exposes a trailing space,
yielding "A " (with a trailing space), and a second pass removes it. -/
theorem c3_counterexample :
    clean_heading_text (clean_heading_text "A .".data) ≠
      clean_heading_text "A .".data := by decide

/-- C3 (amended): `clean` is idempotent on every input whose cleaned form
does not end in a space — equivalently, whenever stripping the trailing
punctuation does not expose trailing whitespace (the only way a second
pass can differ). -/
theorem c3_clean_idempotent (x : List Char)
    (h : (clean_heading_text x).getLast? ≠ some ' ') :
    clean_heading_text (clean_heading_text x) = clean_heading_text x := by
  have hnorm : ws_normal (pyStrip (collapseWs x)) :=
    ws_normal_mono (pyStrip_within _) (ws_normal_collapseWs x)
  have hhead := head?_pyStrip (collapseWs x)
  have hlast := getLast?_pyStrip (collapseWs x)
  by_cases hnd : re_num_dot (pyStrip (collapseWs x)) = true
  · have hcx : clean_heading_text x = pyStrip (collapseWs x) := by
      simp only [clean_heading_text]
      rw [if_pos hnd]
    rw [hcx]
    simp only [clean_heading_text]
    rw [collapseWs_eq_self hnorm, pyStrip_eq_self hhead hlast, if_pos hnd]
  · have hcx : clean_heading_text x =
        strip_trailing_punct (pyStrip (collapseWs x)) := by
      simp only [clean_heading_text]
      rw [if_neg hnd]
    rw [hcx] at h ⊢
    have hyp : strip_trailing_punct (pyStrip (collapseWs x)) <+:
        pyStrip (collapseWs x) := strip_trailing_punct_pre _
    have hnormy : ws_normal (strip_trailing_punct (pyStrip (collapseWs x))) :=
      ws_normal_mono hyp.isInfix hnorm
    have hheady : ∀ c ∈ (strip_trailing_punct (pyStrip (collapseWs x))).head?,
        pyIsSpace c = false := by
      intro c hc
      obtain ⟨r, hr⟩ := hyp
      cases hw : strip_trailing_punct (pyStrip (collapseWs x)) with
      | nil => rw [hw] at hc; simp at hc
      | cons a t2 =>
        rw [hw] at hc
        have hac : a = c := by simpa using hc
        rw [← hac]
        apply hhead
        rw [← hr, hw]
        simp
    have hlasty : ∀ c ∈ (strip_trailing_punct
        (pyStrip (collapseWs x))).getLast?, pyIsSpace c = false := by
      intro c hc
      by_contra hw
      rw [Bool.not_eq_false] at hw
      have hcm : c ∈ strip_trailing_punct (pyStrip (collapseWs x)) := by
        rw [Option.mem_def] at hc
        exact List.mem_of_getLast?_eq_some hc
      apply h
      rw [Option.mem_def] at hc
      rw [hc, hnormy.1 c hcm hw]
    have hnd2 :
        ¬ re_num_dot (strip_trailing_punct (pyStrip (collapseWs x))) = true :=
      fun hcontra => hnd (re_num_dot_mono hyp hcontra)
    simp only [clean_heading_text]
    rw [collapseWs_eq_self hnormy, pyStrip_eq_self hheady hlasty, if_neg hnd2]
    exact strip_trailing_punct_eq_self (getLast?_strip_trailing_punct _)

/-- C3, witness: "Overview:" cleans to "Overview" (no trailing space), and
a second pass is the identity. -/
theorem c3_witness :
    (clean_heading_text "Overview:".data).getLast? ≠ some ' ' ∧
    clean_heading_text (clean_heading_text "Overview:".data) =
      clean_heading_text "Overview:".data :=
  ⟨by decide, c3_clean_idempotent "Overview:".data (by decide)⟩

end DocOutline
